import Mathlib

/-!
Verification of the geometric-analysis engine of `treatment_evaluation.py`
(implant deviation and overlap analysis).

The engine works on 3D points and vectors represented as real triples.
Pure math utilities (`vector_components`, `distance`,
`angle_between_vectors`, `cylinder_volume`) are translated directly.
The frustum builder `create_truncated_cone` is translated as a function
returning an `Option FrustumObj`, where `FrustumObj` records the data the
code hands to the mesh primitive (radii, depth, location) together with the
rotation setting the code applies to the object.  The Blender boolean
intersection (`boolean_intersection_volume`) is external library machinery;
the analyzer `analyze_implant` is therefore parameterized by an abstract
intersection-volume function, exactly as the code calls it only on the two
successfully built objects.
-/

noncomputable section

open scoped Classical

/-- A 3D point or vector with real coordinates, as the numpy arrays of
length three used throughout the code. -/
@[ext]
structure Vec3 where
  x : ℝ
  y : ℝ
  z : ℝ

namespace Vec3

/-- Componentwise addition, as numpy array addition. -/
def add (a b : Vec3) : Vec3 := ⟨a.x + b.x, a.y + b.y, a.z + b.z⟩

/-- Componentwise subtraction, as numpy array subtraction. -/
def sub (a b : Vec3) : Vec3 := ⟨a.x - b.x, a.y - b.y, a.z - b.z⟩

/-- Componentwise negation. -/
def neg (a : Vec3) : Vec3 := ⟨-a.x, -a.y, -a.z⟩

/-- Scalar multiplication, as numpy scalar-array multiplication. -/
def smul (c : ℝ) (a : Vec3) : Vec3 := ⟨c * a.x, c * a.y, c * a.z⟩

/-- Dot product, as `np.dot` on length-three arrays. -/
def dot (a b : Vec3) : ℝ := a.x * b.x + a.y * b.y + a.z * b.z

/-- Euclidean norm, as `np.linalg.norm` on a length-three array. -/
def norm (a : Vec3) : ℝ := Real.sqrt (a.x ^ 2 + a.y ^ 2 + a.z ^ 2)

/-- Cross product, as `np.cross` on length-three arrays. -/
def cross (a b : Vec3) : Vec3 :=
  ⟨a.y * b.z - a.z * b.y, a.z * b.x - a.x * b.z, a.x * b.y - a.y * b.x⟩

/-- The zero vector. -/
def zero : Vec3 := ⟨0, 0, 0⟩

end Vec3

/-- Translation of `vector_components(p1, p2)`: the vector `p2 - p1`. -/
def vector_components (p1 p2 : Vec3) : Vec3 := Vec3.sub p2 p1

/-- Translation of `distance(p1, p2)`: the Euclidean norm of
`vector_components(p1, p2)`. -/
def distance (p1 p2 : Vec3) : ℝ := (vector_components p1 p2).norm

/-- Translation of `np.clip(x, lo, hi)` for scalars. -/
def npclip (x lo hi : ℝ) : ℝ := max lo (min x hi)

/-- Translation of `math.degrees`: radians times 180 over pi. -/
def degrees (x : ℝ) : ℝ := x * 180 / Real.pi

/-- Translation of `angle_between_vectors(v1, v2)`: zero when either norm is
zero, otherwise the arccos of the clipped normalized dot product, in
degrees. -/
def angle_between_vectors (v1 v2 : Vec3) : ℝ :=
  if v1.norm = 0 ∨ v2.norm = 0 then 0
  else degrees (Real.arccos (npclip (Vec3.dot v1 v2 / (v1.norm * v2.norm)) (-1) 1))

/-- Translation of `cylinder_volume(r_top, r_bottom, h)`: the closed-form
truncated-cone volume. -/
def cylinder_volume (r_top r_bottom h : ℝ) : ℝ :=
  (1 / 3) * Real.pi * h * (r_top ^ 2 + r_top * r_bottom + r_bottom ^ 2)

/-- The default relative tolerance of `np.allclose` (the code passes only
`atol`, so `rtol` keeps its numpy default of `1e-5`). -/
def np_rtol : ℝ := 1 / 100000

/-- Translation of `np.allclose(a, b, atol)` on length-three arrays:
componentwise `|a - b| <= atol + rtol * |b|` with the numpy default
relative tolerance. -/
def allclose (a b : Vec3) (atol : ℝ) : Prop :=
  |a.x - b.x| ≤ atol + np_rtol * |b.x| ∧
  |a.y - b.y| ≤ atol + np_rtol * |b.y| ∧
  |a.z - b.z| ≤ atol + np_rtol * |b.z|

/-- The rotation setting `create_truncated_cone` leaves on the created
object: either the default identity rotation, or an axis-angle rotation
`(angle, ax, ay, az)` assigned to `rotation_axis_angle`. -/
inductive RotationSetting where
  | identity : RotationSetting
  | axisAngle (angle ax ay az : ℝ) : RotationSetting

/-- The data `create_truncated_cone` gives the created cone object: the
arguments of `bpy.ops.mesh.primitive_cone_add` (64 segments, the two radii,
the depth and the midpoint location), the assigned name, and the rotation
setting applied afterwards. -/
structure FrustumObj where
  name : String
  segments : ℕ
  base_radius : ℝ
  apex_radius : ℝ
  depth : ℝ
  location : Vec3
  rotation : RotationSetting

/-- The rotation branch of `create_truncated_cone`, as a function of the
normalized direction vector: identity when `np.allclose` to `(0,0,1)` with
`atol=1e-6`; a 180 degree rotation about the X axis when `np.allclose` to
`(0,0,-1)`; otherwise the cross-product axis-angle rotation when the cross
product of the up vector and the direction is longer than `1e-6`, and the
default identity rotation (after a printed warning) when it is not. -/
def cone_rotation (d : Vec3) : RotationSetting :=
  if allclose d ⟨0, 0, 1⟩ (1 / 1000000) then RotationSetting.identity
  else if allclose d ⟨0, 0, -1⟩ (1 / 1000000) then
    RotationSetting.axisAngle Real.pi 1 0 0
  else
    if (Vec3.cross ⟨0, 0, 1⟩ d).norm > 1 / 1000000 then
      RotationSetting.axisAngle
        (Real.arccos (npclip (Vec3.dot ⟨0, 0, 1⟩ d) (-1) 1))
        ((Vec3.smul (1 / (Vec3.cross ⟨0, 0, 1⟩ d).norm) (Vec3.cross ⟨0, 0, 1⟩ d)).x)
        ((Vec3.smul (1 / (Vec3.cross ⟨0, 0, 1⟩ d).norm) (Vec3.cross ⟨0, 0, 1⟩ d)).y)
        ((Vec3.smul (1 / (Vec3.cross ⟨0, 0, 1⟩ d).norm) (Vec3.cross ⟨0, 0, 1⟩ d)).z)
    else RotationSetting.identity

/-- Translation of `create_truncated_cone(name, base_pos, apex_pos,
base_radius, apex_radius)`: `None` when the height (the norm of
`apex_pos - base_pos`) is zero, otherwise the cone object created at the
midpoint with the rotation derived from the normalized direction. -/
def create_truncated_cone (name : String) (base_pos apex_pos : Vec3)
    (base_radius apex_radius : ℝ) : Option FrustumObj :=
  let direction := Vec3.sub apex_pos base_pos
  let height := direction.norm
  if height = 0 then none
  else
    some
      { name := name
        segments := 64
        base_radius := base_radius
        apex_radius := apex_radius
        depth := height
        location := Vec3.smul (1 / 2) (Vec3.add base_pos apex_pos)
        rotation := cone_rotation (Vec3.smul (1 / height) direction) }

/-- The report `analyze_implant` assembles into its result string: the two
deviation vectors and distances, the angular deviation, the overlap volume
and the overlap percentage. -/
structure AnalysisReport where
  base_dev_vec : Vec3
  base_dev_dist : ℝ
  apex_dev_vec : Vec3
  apex_dev_dist : ℝ
  ang_dev : ℝ
  overlap_vol : ℝ
  overlap_pct : ℝ

/-- Translation of `analyze_implant(pb, pa, rb, ra, r_ptop, r_pbot, r_rtop,
r_rbot)`, parameterized by the Blender boolean-intersection volume
`interVol` (the code calls `boolean_intersection_volume` only when both
cones were created; otherwise the overlap volume stays at its initial
`0.0`). -/
def analyze_implant (interVol : FrustumObj → FrustumObj → ℝ)
    (pb pa rb ra : Vec3) (r_ptop r_pbot r_rtop r_rbot : ℝ) : AnalysisReport :=
  let base_dev_vec := vector_components pb rb
  let apex_dev_vec := vector_components pa ra
  let ang_dev := angle_between_vectors (vector_components pb pa) (vector_components rb ra)
  let planned_obj := create_truncated_cone "PlannedImplantTemp" pb pa r_pbot r_ptop
  let real_obj := create_truncated_cone "RealImplantTemp" rb ra r_rbot r_rtop
  let overlap_vol : ℝ :=
    match planned_obj, real_obj with
    | some a, some b => interVol a b
    | _, _ => 0
  let planned_vol := cylinder_volume r_ptop r_pbot (distance pb pa)
  let overlap_pct : ℝ := if planned_vol > 0 then 100 * overlap_vol / planned_vol else 0
  { base_dev_vec := base_dev_vec
    base_dev_dist := base_dev_vec.norm
    apex_dev_vec := apex_dev_vec
    apex_dev_dist := apex_dev_vec.norm
    ang_dev := ang_dev
    overlap_vol := overlap_vol
    overlap_pct := overlap_pct }

/-- An intersection-volume oracle that always reports zero overlap, used to
instantiate `analyze_implant` at concrete inputs. -/
def trivialInterVol : FrustumObj → FrustumObj → ℝ := fun _ _ => 0

/-- The norm of a vector vanishes exactly when all three components do. -/
theorem Vec3.norm_eq_zero_iff (v : Vec3) :
    v.norm = 0 ↔ v.x = 0 ∧ v.y = 0 ∧ v.z = 0 := by
  unfold Vec3.norm
  rw [Real.sqrt_eq_zero (by positivity)]
  constructor
  · intro h
    refine ⟨?_, ?_, ?_⟩ <;> nlinarith [sq_nonneg v.x, sq_nonneg v.y, sq_nonneg v.z]
  · rintro ⟨hx, hy, hz⟩
    rw [hx, hy, hz]; ring

/-- C8: for all radii r at least zero and heights h above zero, the analytic
frustum volume with equal radii r and height h equals pi times r squared
times h, the cylinder special case. -/
theorem cylinder_volume_eq_cylinder_case (r h : ℝ) (hr : 0 ≤ r) (hh : 0 < h) :
    cylinder_volume r r h = Real.pi * r ^ 2 * h := by
  unfold cylinder_volume; ring

/-- Witness for C8 at r = 1, h = 2. -/
theorem cylinder_volume_eq_cylinder_case_witness :
    (0 : ℝ) ≤ 1 ∧ (0 : ℝ) < 2 ∧ cylinder_volume 1 1 2 = Real.pi * 1 ^ 2 * 2 :=
  ⟨by norm_num, by norm_num,
    cylinder_volume_eq_cylinder_case 1 2 (by norm_num) (by norm_num)⟩

/-- C10: the analytic frustum volume is symmetric in its two radius
arguments, for all radii at least zero and every height. -/
theorem cylinder_volume_radius_symm (a b h : ℝ) (ha : 0 ≤ a) (hb : 0 ≤ b) :
    cylinder_volume a b h = cylinder_volume b a h := by
  unfold cylinder_volume; ring

/-- Witness for C10 at a = 1, b = 2, h = 3. -/
theorem cylinder_volume_radius_symm_witness :
    (0 : ℝ) ≤ 1 ∧ (0 : ℝ) ≤ 2 ∧ cylinder_volume 1 2 3 = cylinder_volume 2 1 3 :=
  ⟨by norm_num, by norm_num,
    cylinder_volume_radius_symm 1 2 3 (by norm_num) (by norm_num)⟩

/-- C9: vector_components is antisymmetric in its arguments, and distance is
symmetric. -/
theorem vector_components_antisymm_distance_symm (p1 p2 : Vec3) :
    vector_components p1 p2 = Vec3.neg (vector_components p2 p1) ∧
    distance p1 p2 = distance p2 p1 := by
  constructor
  · unfold vector_components Vec3.sub Vec3.neg
    ext <;> dsimp <;> ring
  · unfold distance vector_components Vec3.norm Vec3.sub
    dsimp
    rw [show (p2.x - p1.x) ^ 2 + (p2.y - p1.y) ^ 2 + (p2.z - p1.z) ^ 2
        = (p1.x - p2.x) ^ 2 + (p1.y - p2.y) ^ 2 + (p1.z - p2.z) ^ 2 by ring]

/-- The norm of the difference vanishes exactly when the two points
coincide. -/
theorem Vec3.sub_norm_eq_zero_iff (a b : Vec3) :
    (Vec3.sub a b).norm = 0 ↔ a = b := by
  rw [Vec3.norm_eq_zero_iff]
  unfold Vec3.sub
  constructor
  · rintro ⟨hx, hy, hz⟩
    ext <;> dsimp at hx hy hz <;> linarith
  · intro h
    rw [h]; dsimp; norm_num

/-- C2: the frustum builder returns no object exactly when the apex equals
the base (zero height); for any distinct endpoints and any radii it returns
a mesh object. -/
theorem create_truncated_cone_none_iff_zero_height (name : String)
    (base_pos apex_pos : Vec3) (base_radius apex_radius : ℝ) :
    create_truncated_cone name base_pos apex_pos base_radius apex_radius = none ↔
      apex_pos = base_pos := by
  unfold create_truncated_cone
  by_cases h : (Vec3.sub apex_pos base_pos).norm = 0
  · rw [if_pos h]
    simp only [true_iff]
    exact (Vec3.sub_norm_eq_zero_iff _ _).mp h
  · rw [if_neg h]
    constructor
    · intro hc
      exact absurd hc (Option.some_ne_none _)
    · intro he
      exact absurd ((Vec3.sub_norm_eq_zero_iff _ _).mpr he) h

/-- C6: when either argument has zero length, angle_between_vectors returns
zero rather than failing. -/
theorem angle_zero_of_zero_length (v1 v2 : Vec3)
    (h : v1.norm = 0 ∨ v2.norm = 0) :
    angle_between_vectors v1 v2 = 0 := by
  unfold angle_between_vectors
  rw [if_pos h]

/-- Witness for C6 at the zero vector against (1, 2, 3). -/
theorem angle_zero_of_zero_length_witness :
    Vec3.norm ⟨0, 0, 0⟩ = 0 ∧ angle_between_vectors ⟨0, 0, 0⟩ ⟨1, 2, 3⟩ = 0 := by
  have h0 : Vec3.norm ⟨0, 0, 0⟩ = 0 := by
    unfold Vec3.norm
    rw [show ((0 : ℝ) ^ 2 + 0 ^ 2 + 0 ^ 2) = 0 by norm_num, Real.sqrt_zero]
  exact ⟨h0, angle_zero_of_zero_length _ _ (Or.inl h0)⟩

/-- C7: for non-zero, non-parallel vectors the angle is symmetric in its
arguments and lies between 0 and 180 degrees. -/
theorem angle_symm_and_range (v1 v2 : Vec3)
    (h1 : v1 ≠ Vec3.zero) (h2 : v2 ≠ Vec3.zero)
    (hnp : ¬ ∃ c : ℝ, v2 = Vec3.smul c v1) :
    angle_between_vectors v1 v2 = angle_between_vectors v2 v1 ∧
    0 ≤ angle_between_vectors v1 v2 ∧ angle_between_vectors v1 v2 ≤ 180 := by
  have hz : ∀ v : Vec3, v ≠ Vec3.zero → v.norm ≠ 0 := by
    intro v hv hnorm
    apply hv
    rw [Vec3.norm_eq_zero_iff] at hnorm
    ext <;> simp [Vec3.zero, hnorm.1, hnorm.2.1, hnorm.2.2]
  have hn1 := hz v1 h1
  have hn2 := hz v2 h2
  have hguard1 : ¬ (v1.norm = 0 ∨ v2.norm = 0) := by tauto
  have hguard2 : ¬ (v2.norm = 0 ∨ v1.norm = 0) := by tauto
  unfold angle_between_vectors
  rw [if_neg hguard1, if_neg hguard2]
  have hdot : Vec3.dot v1 v2 = Vec3.dot v2 v1 := by unfold Vec3.dot; ring
  refine ⟨by rw [hdot, mul_comm v1.norm v2.norm], ?_, ?_⟩
  · unfold degrees
    have ha := Real.arccos_nonneg (npclip (Vec3.dot v1 v2 / (v1.norm * v2.norm)) (-1) 1)
    have hpi := Real.pi_pos
    positivity
  · unfold degrees
    have ha := Real.arccos_le_pi (npclip (Vec3.dot v1 v2 / (v1.norm * v2.norm)) (-1) 1)
    rw [div_le_iff Real.pi_pos]
    nlinarith [Real.pi_pos]

/-- Witness for C7 at the unit X and unit Y vectors. -/
theorem angle_symm_and_range_witness :
    (⟨1, 0, 0⟩ : Vec3) ≠ Vec3.zero ∧ (⟨0, 1, 0⟩ : Vec3) ≠ Vec3.zero ∧
    (¬ ∃ c : ℝ, (⟨0, 1, 0⟩ : Vec3) = Vec3.smul c ⟨1, 0, 0⟩) ∧
    (angle_between_vectors ⟨1, 0, 0⟩ ⟨0, 1, 0⟩ =
        angle_between_vectors ⟨0, 1, 0⟩ ⟨1, 0, 0⟩ ∧
      0 ≤ angle_between_vectors ⟨1, 0, 0⟩ ⟨0, 1, 0⟩ ∧
      angle_between_vectors ⟨1, 0, 0⟩ ⟨0, 1, 0⟩ ≤ 180) := by
  have hx : (⟨1, 0, 0⟩ : Vec3) ≠ Vec3.zero := by
    intro h
    have := congrArg Vec3.x h
    norm_num [Vec3.zero] at this
  have hy : (⟨0, 1, 0⟩ : Vec3) ≠ Vec3.zero := by
    intro h
    have := congrArg Vec3.y h
    norm_num [Vec3.zero] at this
  have hnp : ¬ ∃ c : ℝ, (⟨0, 1, 0⟩ : Vec3) = Vec3.smul c ⟨1, 0, 0⟩ := by
    rintro ⟨c, hc⟩
    have := congrArg Vec3.y hc
    norm_num [Vec3.smul] at this
  exact ⟨hx, hy, hnp, angle_symm_and_range _ _ hx hy hnp⟩

/-- C5: the overlap percentage field of the report equals 100 times the
overlap volume over the analytic planned volume when that volume is
positive, and zero otherwise, where the planned volume is the analytic
frustum volume at the planned radii and the distance between the planned
endpoints. -/
theorem overlap_percentage_formula (interVol : FrustumObj → FrustumObj → ℝ)
    (pb pa rb ra : Vec3) (r_ptop r_pbot r_rtop r_rbot : ℝ) :
    (analyze_implant interVol pb pa rb ra r_ptop r_pbot r_rtop r_rbot).overlap_pct =
      if cylinder_volume r_ptop r_pbot (distance pb pa) > 0 then
        100 * (analyze_implant interVol pb pa rb ra r_ptop r_pbot r_rtop r_rbot).overlap_vol /
          cylinder_volume r_ptop r_pbot (distance pb pa)
      else 0 := by
  unfold analyze_implant
  rfl

/-- When the height is nonzero the builder returns the cone object with the
midpoint location and the rotation derived from the normalized direction. -/
theorem create_truncated_cone_eq_some (name : String) (base_pos apex_pos : Vec3)
    (base_radius apex_radius : ℝ) (h : (Vec3.sub apex_pos base_pos).norm ≠ 0) :
    create_truncated_cone name base_pos apex_pos base_radius apex_radius =
      some
        { name := name
          segments := 64
          base_radius := base_radius
          apex_radius := apex_radius
          depth := (Vec3.sub apex_pos base_pos).norm
          location := Vec3.smul (1 / 2) (Vec3.add base_pos apex_pos)
          rotation := cone_rotation
            (Vec3.smul (1 / (Vec3.sub apex_pos base_pos).norm)
              (Vec3.sub apex_pos base_pos)) } := by
  unfold create_truncated_cone
  rw [if_neg h]

/-- A direction exactly equal to the up vector passes the first allclose
test, so the rotation stays the identity. -/
theorem cone_rotation_up : cone_rotation ⟨0, 0, 1⟩ = RotationSetting.identity := by
  unfold cone_rotation
  rw [if_pos]
  refine ⟨?_, ?_, ?_⟩ <;> norm_num [np_rtol]

/-- A direction exactly equal to the down vector fails the up test, passes
the down test, and receives the 180 degree X-axis rotation. -/
theorem cone_rotation_down :
    cone_rotation ⟨0, 0, -1⟩ = RotationSetting.axisAngle Real.pi 1 0 0 := by
  unfold cone_rotation
  rw [if_neg, if_pos]
  · refine ⟨?_, ?_, ?_⟩ <;> norm_num [np_rtol]
  · intro h
    have h3 := h.2.2
    norm_num [np_rtol] at h3

/-- C4: for every pair of endpoints whose direction is exactly anti-parallel
to the up axis (same x, same y, apex strictly below the base), the builder
succeeds and applies the axis-angle rotation by pi about the X axis. -/
theorem antiparallel_axis_rotates_pi_about_x (name : String)
    (base_pos apex_pos : Vec3) (base_radius apex_radius : ℝ)
    (hx : apex_pos.x = base_pos.x) (hy : apex_pos.y = base_pos.y)
    (hz : apex_pos.z < base_pos.z) :
    ∃ obj,
      create_truncated_cone name base_pos apex_pos base_radius apex_radius = some obj ∧
      obj.rotation = RotationSetting.axisAngle Real.pi 1 0 0 := by
  have hdir : Vec3.sub apex_pos base_pos = ⟨0, 0, apex_pos.z - base_pos.z⟩ := by
    unfold Vec3.sub
    rw [hx, hy]
    ext <;> dsimp <;> ring
  have hnorm : (Vec3.sub apex_pos base_pos).norm = base_pos.z - apex_pos.z := by
    rw [hdir]
    unfold Vec3.norm
    dsimp
    rw [show (0 : ℝ) ^ 2 + 0 ^ 2 + (apex_pos.z - base_pos.z) ^ 2
        = (base_pos.z - apex_pos.z) ^ 2 by ring,
      Real.sqrt_sq (by linarith)]
  have hne : (Vec3.sub apex_pos base_pos).norm ≠ 0 := by
    rw [hnorm]
    intro h0
    linarith
  have hzz : base_pos.z - apex_pos.z ≠ 0 := by
    intro h0
    linarith
  have hd : Vec3.smul (1 / (Vec3.sub apex_pos base_pos).norm)
      (Vec3.sub apex_pos base_pos) = ⟨0, 0, -1⟩ := by
    rw [hnorm, hdir]
    unfold Vec3.smul
    ext <;> dsimp
    · ring
    · ring
    · field_simp
  refine ⟨_, create_truncated_cone_eq_some name base_pos apex_pos
    base_radius apex_radius hne, ?_⟩
  dsimp
  rw [hd, cone_rotation_down]

/-- Witness for C4 with base at the origin and apex one unit straight
down. -/
theorem antiparallel_axis_rotates_pi_about_x_witness :
    (⟨0, 0, -1⟩ : Vec3).x = (⟨0, 0, 0⟩ : Vec3).x ∧
    (⟨0, 0, -1⟩ : Vec3).y = (⟨0, 0, 0⟩ : Vec3).y ∧
    (⟨0, 0, -1⟩ : Vec3).z < (⟨0, 0, 0⟩ : Vec3).z ∧
    ∃ obj,
      create_truncated_cone "AntiparallelCone" ⟨0, 0, 0⟩ ⟨0, 0, -1⟩ 1 1 = some obj ∧
      obj.rotation = RotationSetting.axisAngle Real.pi 1 0 0 :=
  ⟨rfl, rfl, by norm_num,
    antiparallel_axis_rotates_pi_about_x "AntiparallelCone" ⟨0, 0, 0⟩ ⟨0, 0, -1⟩ 1 1
      rfl rfl (by norm_num)⟩

/-- C3 amended: for every built frustum whose normalized direction passes
the componentwise np.allclose test against the up vector with atol 1e-6
(and the numpy default rtol 1e-5), the builder applies the identity
rotation; the componentwise test, not a cosine-space test, selects the
branch. -/
theorem identity_rotation_of_allclose_up (name : String) (base_pos apex_pos : Vec3)
    (base_radius apex_radius : ℝ) (obj : FrustumObj)
    (hobj : create_truncated_cone name base_pos apex_pos base_radius apex_radius = some obj)
    (hpar : allclose
      (Vec3.smul (1 / (Vec3.sub apex_pos base_pos).norm) (Vec3.sub apex_pos base_pos))
      ⟨0, 0, 1⟩ (1 / 1000000)) :
    obj.rotation = RotationSetting.identity := by
  have hne : (Vec3.sub apex_pos base_pos).norm ≠ 0 := by
    intro h0
    have hn : create_truncated_cone name base_pos apex_pos base_radius apex_radius = none := by
      unfold create_truncated_cone
      rw [if_pos h0]
    rw [hn] at hobj
    exact Option.noConfusion hobj
  rw [create_truncated_cone_eq_some name base_pos apex_pos base_radius apex_radius hne]
    at hobj
  have hobj2 := Option.some.inj hobj
  subst hobj2
  unfold cone_rotation
  rw [if_pos hpar]

/-- Witness for C3 amended: a cone from the origin straight up to height
five is built with the identity rotation. -/
theorem identity_rotation_of_allclose_up_witness :
    create_truncated_cone "UpCone" ⟨0, 0, 0⟩ ⟨0, 0, 5⟩ 1 1 =
      some ⟨"UpCone", 64, 1, 1, 5, ⟨0, 0, 5 / 2⟩, RotationSetting.identity⟩ ∧
    allclose
      (Vec3.smul (1 / (Vec3.sub ⟨0, 0, 5⟩ ⟨0, 0, 0⟩).norm) (Vec3.sub ⟨0, 0, 5⟩ ⟨0, 0, 0⟩))
      ⟨0, 0, 1⟩ (1 / 1000000) ∧
    FrustumObj.rotation ⟨"UpCone", 64, 1, 1, 5, ⟨0, 0, 5 / 2⟩, RotationSetting.identity⟩ =
      RotationSetting.identity := by
  have hsub : Vec3.sub ⟨0, 0, 5⟩ ⟨0, 0, 0⟩ = (⟨0, 0, 5⟩ : Vec3) := by
    unfold Vec3.sub; ext <;> dsimp <;> norm_num
  have hnorm : (Vec3.sub ⟨0, 0, 5⟩ ⟨0, 0, 0⟩).norm = 5 := by
    rw [hsub]
    unfold Vec3.norm
    dsimp
    rw [show (0 : ℝ) ^ 2 + 0 ^ 2 + 5 ^ 2 = 5 ^ 2 by norm_num, Real.sqrt_sq (by norm_num)]
  have hne : (Vec3.sub ⟨0, 0, 5⟩ ⟨0, 0, 0⟩).norm ≠ 0 := by rw [hnorm]; norm_num
  have hd : Vec3.smul (1 / (Vec3.sub ⟨0, 0, 5⟩ ⟨0, 0, 0⟩).norm)
      (Vec3.sub ⟨0, 0, 5⟩ ⟨0, 0, 0⟩) = ⟨0, 0, 1⟩ := by
    rw [hnorm, hsub]
    unfold Vec3.smul
    ext <;> dsimp <;> norm_num
  have hloc : Vec3.smul (1 / 2) (Vec3.add ⟨0, 0, 0⟩ ⟨0, 0, 5⟩) = (⟨0, 0, 5 / 2⟩ : Vec3) := by
    unfold Vec3.add Vec3.smul
    ext <;> dsimp <;> norm_num
  have hpar : allclose
      (Vec3.smul (1 / (Vec3.sub ⟨0, 0, 5⟩ ⟨0, 0, 0⟩).norm) (Vec3.sub ⟨0, 0, 5⟩ ⟨0, 0, 0⟩))
      ⟨0, 0, 1⟩ (1 / 1000000) := by
    rw [hd]
    refine ⟨?_, ?_, ?_⟩ <;> norm_num [np_rtol]
  have hc : create_truncated_cone "UpCone" ⟨0, 0, 0⟩ ⟨0, 0, 5⟩ 1 1 =
      some ⟨"UpCone", 64, 1, 1, 5, ⟨0, 0, 5 / 2⟩, RotationSetting.identity⟩ := by
    rw [create_truncated_cone_eq_some _ _ _ _ _ hne, hd, cone_rotation_up, hnorm, hloc]
  exact ⟨hc, hpar, identity_rotation_of_allclose_up "UpCone" ⟨0, 0, 0⟩ ⟨0, 0, 5⟩ 1 1 _ hc hpar⟩

/-- C3 counterexample: the normalized direction of the cone from the origin
to (2001, 0, 2002000) is a unit vector whose cosine with the up axis is
within 1e-6 of 1, yet the builder does not apply the identity rotation,
because the code tests componentwise closeness to the up vector rather than
closeness in cosine space. -/
theorem parallel_test_not_cosine_space_cx :
    (Vec3.smul (1 / (Vec3.sub ⟨2001, 0, 2002000⟩ ⟨0, 0, 0⟩).norm)
        (Vec3.sub ⟨2001, 0, 2002000⟩ ⟨0, 0, 0⟩)).norm = 1 ∧
    1 - Vec3.dot
        (Vec3.smul (1 / (Vec3.sub ⟨2001, 0, 2002000⟩ ⟨0, 0, 0⟩).norm)
          (Vec3.sub ⟨2001, 0, 2002000⟩ ⟨0, 0, 0⟩)) ⟨0, 0, 1⟩ < 1 / 1000000 ∧
    ∃ obj,
      create_truncated_cone "NearVerticalCone" ⟨0, 0, 0⟩ ⟨2001, 0, 2002000⟩ 1 1 = some obj ∧
      obj.rotation ≠ RotationSetting.identity := by
  have hsub : Vec3.sub ⟨2001, 0, 2002000⟩ ⟨0, 0, 0⟩ = (⟨2001, 0, 2002000⟩ : Vec3) := by
    unfold Vec3.sub; ext <;> dsimp <;> norm_num
  have hnorm : (Vec3.sub ⟨2001, 0, 2002000⟩ ⟨0, 0, 0⟩).norm = 2002001 := by
    rw [hsub]
    unfold Vec3.norm
    dsimp
    rw [show (2001 : ℝ) ^ 2 + 0 ^ 2 + 2002000 ^ 2 = 2002001 ^ 2 by norm_num,
      Real.sqrt_sq (by norm_num)]
  have hne : (Vec3.sub ⟨2001, 0, 2002000⟩ ⟨0, 0, 0⟩).norm ≠ 0 := by rw [hnorm]; norm_num
  have hd : Vec3.smul (1 / (Vec3.sub ⟨2001, 0, 2002000⟩ ⟨0, 0, 0⟩).norm)
      (Vec3.sub ⟨2001, 0, 2002000⟩ ⟨0, 0, 0⟩) = ⟨2001 / 2002001, 0, 2002000 / 2002001⟩ := by
    rw [hnorm, hsub]
    unfold Vec3.smul
    ext <;> dsimp <;> norm_num
  refine ⟨?_, ?_, ?_⟩
  · rw [hd]
    unfold Vec3.norm
    dsimp
    rw [show (2001 / 2002001 : ℝ) ^ 2 + 0 ^ 2 + (2002000 / 2002001) ^ 2 = 1 by norm_num,
      Real.sqrt_one]
  · rw [hd]
    unfold Vec3.dot
    dsimp
    norm_num
  · have hup : ¬ allclose ⟨2001 / 2002001, 0, 2002000 / 2002001⟩ ⟨0, 0, 1⟩ (1 / 1000000) := by
      intro h
      have h1 : |(2001 / 2002001 : ℝ) - 0| ≤ 1 / 1000000 + np_rtol * |(0 : ℝ)| := h.1
      rw [sub_zero, abs_of_nonneg (by norm_num : (0 : ℝ) ≤ 2001 / 2002001)] at h1
      norm_num [np_rtol] at h1
    have hdown : ¬ allclose ⟨2001 / 2002001, 0, 2002000 / 2002001⟩ ⟨0, 0, -1⟩ (1 / 1000000) := by
      intro h
      have h3 : |(2002000 / 2002001 : ℝ) - -1| ≤ 1 / 1000000 + np_rtol * |(-1 : ℝ)| := h.2.2
      rw [abs_of_nonneg (by norm_num : (0 : ℝ) ≤ (2002000 / 2002001 : ℝ) - -1)] at h3
      norm_num [np_rtol] at h3
    have hcross : Vec3.cross ⟨0, 0, 1⟩ ⟨2001 / 2002001, 0, 2002000 / 2002001⟩ =
        ⟨0, 2001 / 2002001, 0⟩ := by
      unfold Vec3.cross
      ext <;> dsimp <;> norm_num
    have hcn : (Vec3.cross ⟨0, 0, 1⟩ ⟨2001 / 2002001, 0, 2002000 / 2002001⟩).norm =
        2001 / 2002001 := by
      rw [hcross]
      unfold Vec3.norm
      dsimp
      rw [show (0 : ℝ) ^ 2 + (2001 / 2002001) ^ 2 + 0 ^ 2 = (2001 / 2002001) ^ 2 by ring,
        Real.sqrt_sq (by norm_num)]
    have hgt : (Vec3.cross ⟨0, 0, 1⟩ ⟨2001 / 2002001, 0, 2002000 / 2002001⟩).norm >
        1 / 1000000 := by
      rw [hcn]; norm_num
    refine ⟨_, create_truncated_cone_eq_some _ _ _ _ _ hne, ?_⟩
    dsimp
    rw [hd]
    unfold cone_rotation
    rw [if_neg hup, if_neg hdown, if_pos hgt]
    intro hcontra
    exact RotationSetting.noConfusion hcontra

/-- Building a cone whose apex equals its base returns no object. -/
theorem create_truncated_cone_none_of_eq (name : String) (p : Vec3)
    (base_radius apex_radius : ℝ) :
    create_truncated_cone name p p base_radius apex_radius = none := by
  unfold create_truncated_cone
  rw [if_pos ((Vec3.sub_norm_eq_zero_iff p p).mpr rfl)]

/-- The overlap percentage field always follows the guarded quotient
formula over the analytic planned volume. -/
theorem analyze_overlap_pct_eq (interVol : FrustumObj → FrustumObj → ℝ)
    (pb pa rb ra : Vec3) (r_ptop r_pbot r_rtop r_rbot : ℝ) :
    (analyze_implant interVol pb pa rb ra r_ptop r_pbot r_rtop r_rbot).overlap_pct =
      if cylinder_volume r_ptop r_pbot (distance pb pa) > 0 then
        100 * (analyze_implant interVol pb pa rb ra r_ptop r_pbot r_rtop r_rbot).overlap_vol /
          cylinder_volume r_ptop r_pbot (distance pb pa)
      else 0 := by
  unfold analyze_implant
  rfl

/-- When either cone construction returns no object, the analyzer leaves
the overlap volume at zero and the overlap percentage evaluates to zero. -/
theorem analyze_overlap_fields_of_none (interVol : FrustumObj → FrustumObj → ℝ)
    (pb pa rb ra : Vec3) (r_ptop r_pbot r_rtop r_rbot : ℝ)
    (h : create_truncated_cone "PlannedImplantTemp" pb pa r_pbot r_ptop = none ∨
      create_truncated_cone "RealImplantTemp" rb ra r_rbot r_rtop = none) :
    (analyze_implant interVol pb pa rb ra r_ptop r_pbot r_rtop r_rbot).overlap_vol = 0 ∧
    (analyze_implant interVol pb pa rb ra r_ptop r_pbot r_rtop r_rbot).overlap_pct = 0 := by
  have hvol :
      (analyze_implant interVol pb pa rb ra r_ptop r_pbot r_rtop r_rbot).overlap_vol = 0 := by
    unfold analyze_implant
    dsimp only
    rcases h with h | h
    · rw [h]
    · rw [h]
      cases create_truncated_cone "PlannedImplantTemp" pb pa r_pbot r_ptop <;> rfl
  refine ⟨hvol, ?_⟩
  rw [analyze_overlap_pct_eq, hvol]
  split <;> norm_num

/-- C1 amended: when either frustum construction fails with zero height,
analyze_implant does not surface any failure to the caller: it still
returns a normal report, with the overlap volume left at zero and the
overlap percentage zero, indistinguishable from a genuine zero-overlap
report. -/
theorem analyze_no_invalid_geometry_surfaced (interVol : FrustumObj → FrustumObj → ℝ)
    (pb pa rb ra : Vec3) (r_ptop r_pbot r_rtop r_rbot : ℝ)
    (h : create_truncated_cone "PlannedImplantTemp" pb pa r_pbot r_ptop = none ∨
      create_truncated_cone "RealImplantTemp" rb ra r_rbot r_rtop = none) :
    (analyze_implant interVol pb pa rb ra r_ptop r_pbot r_rtop r_rbot).overlap_vol = 0 ∧
    (analyze_implant interVol pb pa rb ra r_ptop r_pbot r_rtop r_rbot).overlap_pct = 0 :=
  analyze_overlap_fields_of_none interVol pb pa rb ra r_ptop r_pbot r_rtop r_rbot h

/-- Witness for C1 amended: planned base and apex both at height three. -/
theorem analyze_no_invalid_geometry_surfaced_witness :
    (create_truncated_cone "PlannedImplantTemp" ⟨0, 0, 3⟩ ⟨0, 0, 3⟩ 1 1 = none ∨
      create_truncated_cone "RealImplantTemp" ⟨0, 0, 0⟩ ⟨0, 0, 2⟩ 1 1 = none) ∧
    (analyze_implant trivialInterVol ⟨0, 0, 3⟩ ⟨0, 0, 3⟩ ⟨0, 0, 0⟩ ⟨0, 0, 2⟩ 1 1 1 1).overlap_vol = 0 ∧
    (analyze_implant trivialInterVol ⟨0, 0, 3⟩ ⟨0, 0, 3⟩ ⟨0, 0, 0⟩ ⟨0, 0, 2⟩ 1 1 1 1).overlap_pct = 0 :=
  ⟨Or.inl (create_truncated_cone_none_of_eq "PlannedImplantTemp" ⟨0, 0, 3⟩ 1 1),
    analyze_no_invalid_geometry_surfaced trivialInterVol ⟨0, 0, 3⟩ ⟨0, 0, 3⟩ ⟨0, 0, 0⟩ ⟨0, 0, 2⟩
      1 1 1 1
      (Or.inl (create_truncated_cone_none_of_eq "PlannedImplantTemp" ⟨0, 0, 3⟩ 1 1))⟩

/-- C1 counterexample: with planned base equal to planned apex the planned
frustum construction fails with zero height, yet the analyzer returns an
ordinary report whose overlap volume and overlap percentage are zero, so no
InvalidGeometry failure distinct from a genuine zero-overlap report reaches
the caller. -/
theorem analyze_returns_report_on_zero_height_cx :
    create_truncated_cone "PlannedImplantTemp" ⟨0, 0, 0⟩ ⟨0, 0, 0⟩ 2 2 = none ∧
    (analyze_implant trivialInterVol ⟨0, 0, 0⟩ ⟨0, 0, 0⟩ ⟨1, 0, 0⟩ ⟨1, 0, 1⟩ 2 2 2 2).overlap_vol = 0 ∧
    (analyze_implant trivialInterVol ⟨0, 0, 0⟩ ⟨0, 0, 0⟩ ⟨1, 0, 0⟩ ⟨1, 0, 1⟩ 2 2 2 2).overlap_pct = 0 :=
  ⟨create_truncated_cone_none_of_eq "PlannedImplantTemp" ⟨0, 0, 0⟩ 2 2,
    analyze_overlap_fields_of_none trivialInterVol ⟨0, 0, 0⟩ ⟨0, 0, 0⟩ ⟨1, 0, 0⟩ ⟨1, 0, 1⟩
      2 2 2 2
      (Or.inl (create_truncated_cone_none_of_eq "PlannedImplantTemp" ⟨0, 0, 0⟩ 2 2))⟩
